import Mathlib

/-!
Verification development for the med_notes repository.

The Python sources (`utils.py`, `gui.py`, `main.py`) are shallowly embedded
below.  Filesystem directories are modelled as association lists from file
name to file content, the ambient filesystem used by validation is a function
from path to an optional file stat, and the two remote services (speech to
text, chat completion) are modelled as oracle arguments carrying the value the
service would have produced.  Python string operations (`str.split`,
`str.replace`, `str.strip`, `str.lower`, `str.startswith`, `pathlib.Path.stem`
and `pathlib.Path.suffix`) are re-implemented on `List Char` so that every
definition evaluates inside the kernel.
-/

namespace MedNotes

/-! ## Generic string helpers mirroring the Python string operations -/

/-- Lexicographic comparison of character lists by code point, mirroring
Python's `<=` on `str` (used by `sorted`). -/
def charLe : List Char → List Char → Bool
  | [], _ => true
  | _ :: _, [] => false
  | a :: as, b :: bs => if a < b then true else if b < a then false else charLe as bs

/-- Lexicographic comparison of strings by code point. -/
def strLe (a b : String) : Bool := charLe a.data b.data

instance strLeDecRel : DecidableRel (fun a b : String => strLe a b = true) :=
  fun a b => Bool.decEq (strLe a b) true

/-- Python `str.startswith`. -/
def pyStartsWith (s pre : String) : Bool := pre.data.isPrefixOf s.data

/-- Python `str.endswith`; also the matching condition of a `*.ext` glob
pattern, which matches exactly the names ending with `.ext`. -/
def pyEndsWith (s suf : String) : Bool := suf.data.isSuffixOf s.data

/-- Python `str.strip()` (with no argument): remove leading and trailing
whitespace. -/
def pyStrip (s : String) : String :=
  String.mk (((s.data.dropWhile Char.isWhitespace).reverse.dropWhile Char.isWhitespace).reverse)

/-- Python `str.lower` restricted to the ASCII range used by the sources. -/
def lowerStr (s : String) : String := String.mk (s.data.map Char.toLower)

/-- Drop the first `n` characters of a string (Python `s[n:]`). -/
def strDrop (s : String) (n : Nat) : String := String.mk (s.data.drop n)

/-- Fuel-driven worker for `pySplit`.  The fuel is the length of the input,
which suffices because every recursive call consumes at least one character
when the separator is non-empty. -/
def splitOnAux (sep : List Char) : Nat → List Char → List Char → List (List Char)
  | 0, rest, acc => [acc.reverse ++ rest]
  | _ + 1, [], acc => [acc.reverse]
  | fuel + 1, c :: rest, acc =>
    if sep.isPrefixOf (c :: rest) then
      acc.reverse :: splitOnAux sep fuel ((c :: rest).drop sep.length) []
    else
      splitOnAux sep fuel rest (c :: acc)

/-- Python `s.split(sep)` (no maxsplit): split on every non-overlapping
occurrence of `sep`, scanning left to right. -/
def pySplit (s sep : String) : List String :=
  if sep.data.isEmpty then [s]
  else (splitOnAux sep.data s.data.length s.data []).map String.mk

/-- Python `s.split(sep, 2)`: at most two splits; the remainder after the
second separator stays joined. -/
def pySplit2 (s sep : String) : List String :=
  let ps := pySplit s sep
  if ps.length ≤ 3 then ps else ps.take 2 ++ [String.intercalate sep (ps.drop 2)]

/-- Fuel-driven worker for `pyReplace`. -/
def replaceAux (pat repl : List Char) : Nat → List Char → List Char
  | 0, rest => rest
  | _ + 1, [] => []
  | fuel + 1, c :: rest =>
    if pat.isPrefixOf (c :: rest) then
      repl ++ replaceAux pat repl fuel ((c :: rest).drop pat.length)
    else
      c :: replaceAux pat repl fuel rest

/-- Python `s.replace(pat, repl)`: replace every non-overlapping occurrence,
scanning left to right. -/
def pyReplace (s pat repl : String) : String :=
  if pat.data.isEmpty then s
  else String.mk (replaceAux pat.data repl.data s.data.length s.data)

/-- The final path component of a path string (Python `pathlib.Path.name`). -/
def pyName (p : String) : String :=
  String.mk ((p.data.reverse.takeWhile (fun c => c != '/')).reverse)

/-- Python `pathlib.Path.suffix`: the extension of the final component,
starting at its last dot, empty when the dot is absent, leading or trailing. -/
def pySuffix (p : String) : String :=
  let name := (pyName p).data
  match name.reverse.findIdx? (fun c => c == '.') with
  | none => ""
  | some j =>
    let i := name.length - 1 - j
    if 0 < i ∧ i + 1 < name.length then String.mk (name.drop i) else ""

/-- Python `pathlib.Path.stem`: the final component without its suffix. -/
def pyStem (p : String) : String :=
  let name := (pyName p).data
  String.mk (name.take (name.length - (pySuffix p).data.length))

instance exceptDecEq {ε α : Type} [DecidableEq ε] [DecidableEq α] :
    DecidableEq (Except ε α) := fun x y =>
  match x, y with
  | .error a, .error b =>
    if h : a = b then isTrue (by rw [h]) else isFalse (fun hh => h (Except.error.inj hh))
  | .ok a, .ok b =>
    if h : a = b then isTrue (by rw [h]) else isFalse (fun hh => h (Except.ok.inj hh))
  | .error _, .ok _ => isFalse (fun hh => Except.noConfusion hh)
  | .ok _, .error _ => isFalse (fun hh => Except.noConfusion hh)

/-! ## Filesystem model -/

/-- The information `validate_audio_file` reads about a path: whether it is a
regular file (`Path.is_file`) and its size in bytes (`Path.stat().st_size`).
A path that does not exist is modelled by the ambient filesystem function
returning `none`. -/
structure FileStat where
  isFile : Bool
  size : Nat
  deriving DecidableEq, Repr

/-- A directory is an association list from file name to file content; writing
overwrites the entry with the same name and otherwise appends. -/
def writeFile : List (String × String) → String → String → List (String × String)
  | [], name, content => [(name, content)]
  | (k, v) :: rest, name, content =>
    if k = name then (name, content) :: rest else (k, v) :: writeFile rest name content

/-- Read the content stored under `name`, if present. -/
def readFile : List (String × String) → String → Option String
  | [], _ => none
  | (k, v) :: rest, name => if k = name then some v else readFile rest name

/-! ## utils.py: constants and validate_audio_file -/

/-- `MAX_AUDIO_SIZE = 100 * 1024 * 1024` from utils.py. -/
def MAX_AUDIO_SIZE : Nat := 100 * 1024 * 1024

/-- The `valid_extensions` allow-list inside `validate_audio_file`. -/
def valid_extensions : List String :=
  [".mp3", ".wav", ".m4a", ".ogg", ".flac", ".aac", ".wma", ".aiff", ".alac", ".opus", ".webm"]

/-- The distinct failure modes of `validate_audio_file`: `FileNotFoundError`
for a missing path, `ValueError` for a non-file, an oversized file, or an
extension outside the allow-list.  The Python code distinguishes the three
`ValueError` sites by message; the embedding gives each site its own
constructor. -/
inductive ValidationError where
  | fileNotFound
  | notAFile
  | tooLarge
  | invalidFormat
  deriving DecidableEq, Repr

/-- `validate_audio_file` from utils.py: existence, regular-file, size and
extension checks, in source order, with no effect on the filesystem. -/
def validate_audio_file (fs : String → Option FileStat) (file_path : String) :
    Except ValidationError Unit :=
  match fs file_path with
  | none => .error .fileNotFound
  | some st =>
    if st.isFile = false then .error .notAFile
    else if MAX_AUDIO_SIZE < st.size then .error .tooLarge
    else if valid_extensions.contains (lowerStr (pySuffix file_path)) = false then
      .error .invalidFormat
    else .ok ()

/-! ## utils.py: list_audio_files -/

/-- The `audio_formats` glob patterns of `list_audio_files`, each `"*.ext"`
represented by its extension. -/
def audio_formats : List String :=
  [".mp3", ".wav", ".m4a", ".ogg", ".flac", ".aac", ".wma", ".aiff", ".alac", ".opus", ".webm"]

/-- `AUDIO_DIR.glob("*.ext")`: the directory entries whose name ends with
`.ext` (the pattern is matched case-sensitively, exactly as written). -/
def globExt (entries : List String) (ext : String) : List String :=
  entries.filter (fun name => pyEndsWith name ext)

/-- `list_audio_files` from utils.py: collect the matches of each glob
pattern in order, then return `sorted(audio_files)` (lexicographic order on
names, all entries lying in the same directory). -/
def list_audio_files (entries : List String) : List String :=
  List.insertionSort (fun a b => strLe a b = true)
    (audio_formats.flatMap (fun ext => globExt entries ext))

/-! ## utils.py: transcribe_audio -/

/-- Errors `transcribe_audio` can propagate: a validation failure, or the
error raised by the remote transcription call (re-raised unchanged by the
logging `except` block). -/
inductive TError where
  | validation (e : ValidationError)
  | remote (msg : String)
  deriving DecidableEq, Repr

/-- Filename of the raw transcript artifact: `f"{stem}_raw.txt"`. -/
def raw_transcript_name (stem : String) : String := stem ++ "_raw.txt"

/-- Filename of the HTML transcript artifact: `f"{stem}_formatted.html"`. -/
def formatted_transcript_name (stem : String) : String := stem ++ "_formatted.html"

def transcriptHtmlSeg0 : String :=
  "\n        <!DOCTYPE html>\n        <html>\n        <head>\n            <meta charset=\"UTF-8\">\n            <style>\n                body \x7b\n                    font-family: \x27Segoe UI\x27, Arial, sans-serif;\n                    line-height: 1.6;\n                    max-width: 800px;\n                    margin: 0 auto;\n                    padding: 20px;\n                    color: #2c3e50;\n                    background-color: #f8f9fa;\n                \x7d\n                .container \x7b\n                    background-color: white;\n                    border-radius: 8px;\n                    box-shadow: 0 2px 4px rgba(0,0,0,0.1);\n                    padding: 30px;\n                    margin: 20px 0;\n                \x7d\n                .header \x7b\n                    background-color: #e3f2fd;\n                    padding: 20px;\n                    border-radius: 8px;\n                    margin-bottom: 30px;\n                    border-left: 4px solid #2196f3;\n                \x7d\n                .transcript \x7b\n                    white-space: pre-wrap;\n                    background-color: #fff;\n                    padding: 25px;\n                    border: 1px solid #e0e0e0;\n                    border-radius: 8px;\n                    font-size: 16px;\n                    line-height: 1.8;\n                \x7d\n                .metadata \x7b\n                    color: #666;\n                    font-size: 0.9em;\n                    margin-top: 20px;\n                    padding-top: 20px;\n                    border-top: 1px solid #eee;\n                \x7d\n                h1 \x7b\n                    color: #1976d2;\n                    margin: 0 0 10px 0;\n                    font-size: 24px;\n                \x7d\n                .subtitle \x7b\n                    color: #666;\n                    font-size: 16px;\n                    margin: 0;\n                \x7d\n                .highlight \x7b\n                    background-color: #fff3cd;\n                    padding: 2px 5px;\n                    border-radius: 3px;\n                \x7d\n            </style>\n        </head>\n        <body>\n            <div class=\"container\">\n                <div class=\"header\">\n                    <h1>Medical Transcription</h1>\n                    <p class=\"subtitle\">Professional Audio Transcription</p>\n                </div>\n                <div class=\"transcript\">\n                    "

def transcriptHtmlSeg1 : String :=
  "\n                </div>\n                <div class=\"metadata\">\n                    <p><strong>File:</strong> "

def transcriptHtmlSeg2 : String :=
  "</p>\n                    <p><strong>Date:</strong> "

def transcriptHtmlSeg3 : String :=
  "</p>\n                    <p><strong>Generated by:</strong> OpenAI Whisper API</p>\n                </div>\n            </div>\n        </body>\n        </html>\n        "

/-- The `html_content` f-string of `transcribe_audio`, with its three
interpolation holes filled: the transcript with newlines turned into `<br>`,
the audio file name, and the formatted current date. -/
def transcriptHtml (transcript name now : String) : String :=
  transcriptHtmlSeg0 ++ pyReplace transcript "\n" "<br>" ++ transcriptHtmlSeg1 ++
    name ++ transcriptHtmlSeg2 ++ now ++ transcriptHtmlSeg3

/-- The observable result of one `transcribe_audio` call: the returned value
or propagated error, the transcriptions directory after the call, and how
often each external transcription capability was invoked.  `fallbackCalls`
counts invocations of any local fallback transcription capability; the
function body contains no such call, so the field records how many the code
actually performs. -/
structure TranscribeResult where
  result : Except TError String
  transcriptionsDir : List (String × String)
  remoteCalls : Nat
  fallbackCalls : Nat
  deriving DecidableEq, Repr

/-- `transcribe_audio` from utils.py.  `fs` is the ambient filesystem seen by
validation, `tdir` the transcriptions directory, `remote` the outcome of the
`client.audio.transcriptions.create` call, and `now` the formatted current
date.  On success the raw transcript and an HTML rendering are written; on a
remote error the outer `except` block logs and re-raises the same error, and
nothing is written. -/
def transcribe_audio (fs : String → Option FileStat) (tdir : List (String × String))
    (audio_file : String) (remote : Except String String) (now : String) : TranscribeResult :=
  match validate_audio_file fs audio_file with
  | .error e => ⟨.error (.validation e), tdir, 0, 0⟩
  | .ok _ =>
    match remote with
    | .error msg => ⟨.error (.remote msg), tdir, 1, 0⟩
    | .ok transcript =>
      let tdir1 := writeFile tdir (raw_transcript_name (pyStem audio_file)) transcript
      let html_content := transcriptHtml transcript (pyName audio_file) now
      let tdir2 := writeFile tdir1 (formatted_transcript_name (pyStem audio_file)) html_content
      ⟨.ok transcript, tdir2, 1, 0⟩

/-! ## utils.py: load_template -/

/-- The dictionary returned by `load_template`. -/
structure Template where
  system_content : String
  user_template : String
  deriving DecidableEq, Repr

/-- `load_template` raises only `FileNotFoundError` (for a missing template
file). -/
inductive LoadError where
  | templateNotFound
  deriving DecidableEq, Repr

/-- The front-matter parse performed by `load_template` when the template
starts with `---` and splitting on `---` (at most twice) yields at least three
parts: the last `content:` line of the stripped front matter, with the
`content:` tag removed and stripped, becomes the system message; the stripped
third part becomes the user template. -/
def front_matter_template (template_content : String) : Template :=
  let parts := pySplit2 template_content "---"
  let system_content :=
    (pySplit (pyStrip (parts.getD 1 "")) "\n").foldl
      (fun acc line =>
        if pyStartsWith line "content:" = true then pyStrip (strDrop line 8) else acc) ""
  ⟨system_content, pyStrip (parts.getD 2 "")⟩

/-- `load_template` from utils.py.  `templateFile` is the content of
`templates/prompt.txt` when that file exists.  A template starting with `---`
and containing a complete front-matter block is parsed by
`front_matter_template`; any other template is returned whole with the
default system message. -/
def load_template (templateFile : Option String) : Except LoadError Template :=
  match templateFile with
  | none => .error .templateNotFound
  | some template_content =>
    if pyStartsWith template_content "---" = true then
      if 3 ≤ (pySplit2 template_content "---").length then
        .ok (front_matter_template template_content)
      else
        .ok ⟨"You are a helpful assistant that creates clear summaries of transcripts.",
          template_content⟩
    else
      .ok ⟨"You are a helpful assistant that creates clear summaries of transcripts.",
        template_content⟩

/-! ## utils.py: generate_case_notes -/

/-- One role-tagged message of the completion request. -/
structure ChatMessage where
  role : String
  content : String
  deriving DecidableEq, Repr

/-- The request `generate_case_notes` sends to
`client.chat.completions.create`. -/
structure CompletionRequest where
  model : String
  messages : List ChatMessage
  temperature : Rat
  max_tokens : Nat
  deriving DecidableEq, Repr

def notesHtmlSeg0 : String :=
  "\n        <!DOCTYPE html>\n        <html>\n        <head>\n            <meta charset=\"UTF-8\">\n            <style>\n                body \x7b\n                    font-family: \x27Segoe UI\x27, Arial, sans-serif;\n                    line-height: 1.6;\n                    max-width: 800px;\n                    margin: 0 auto;\n                    padding: 20px;\n                    color: #2c3e50;\n                    background-color: #f8f9fa;\n                \x7d\n                .container \x7b\n                    background-color: white;\n                    border-radius: 8px;\n                    box-shadow: 0 2px 4px rgba(0,0,0,0.1);\n                    padding: 30px;\n                    margin: 20px 0;\n                \x7d\n                .header \x7b\n                    background-color: #e8f5e9;\n                    padding: 20px;\n                    border-radius: 8px;\n                    margin-bottom: 30px;\n                    border-left: 4px solid #4caf50;\n                \x7d\n                .notes \x7b\n                    background-color: #fff;\n                    padding: 25px;\n                    border: 1px solid #e0e0e0;\n                    border-radius: 8px;\n                    font-size: 16px;\n                    line-height: 1.8;\n                \x7d\n                .metadata \x7b\n                    color: #666;\n                    font-size: 0.9em;\n                    margin-top: 20px;\n                    padding-top: 20px;\n                    border-top: 1px solid #eee;\n                \x7d\n                h1 \x7b\n                    color: #2e7d32;\n                    margin: 0 0 10px 0;\n                    font-size: 24px;\n                \x7d\n                .subtitle \x7b\n                    color: #666;\n                    font-size: 16px;\n                    margin: 0;\n                \x7d\n                .section \x7b\n                    margin-bottom: 20px;\n                    padding: 15px;\n                    background-color: #f5f5f5;\n                    border-radius: 6px;\n                \x7d\n                .section-title \x7b\n                    color: #1976d2;\n                    font-weight: bold;\n                    margin-bottom: 10px;\n                \x7d\n                .highlight \x7b\n                    background-color: #fff3cd;\n                    padding: 2px 5px;\n                    border-radius: 3px;\n                \x7d\n                .important \x7b\n                    color: #d32f2f;\n                    font-weight: bold;\n                \x7d\n            </style>\n        </head>\n        <body>\n            <div class=\"container\">\n                <div class=\"header\">\n                    <h1>Medical Case Notes</h1>\n                    <p class=\"subtitle\">AI-Generated Clinical Summary</p>\n                </div>\n                <div class=\"notes\">\n                    "

def notesHtmlSeg1 : String :=
  "\n                </div>\n                <div class=\"metadata\">\n                    <p><strong>Generated:</strong> "

def notesHtmlSeg2 : String :=
  "</p>\n                    <p><strong>Model:</strong> "

def notesHtmlSeg3 : String :=
  "</p>\n                    <p><strong>Generated by:</strong> OpenAI API</p>\n                </div>\n            </div>\n        </body>\n        </html>\n        "

/-- The `html_content` f-string of `generate_case_notes`, with its three
interpolation holes filled: the notes with newlines turned into `<br>`, the
formatted current date, and the model identifier. -/
def notesHtml (notes model now : String) : String :=
  notesHtmlSeg0 ++ pyReplace notes "\n" "<br>" ++ notesHtmlSeg1 ++ now ++
    notesHtmlSeg2 ++ model ++ notesHtmlSeg3

/-- What one `generate_case_notes` call produces: the completion request it
sends, and the returned pair `(notes, html_content)`. -/
structure GenResult where
  request : CompletionRequest
  notes : String
  html_content : String
  deriving DecidableEq, Repr

/-- `generate_case_notes` from utils.py.  `templateFile` is the content of
the template file when present, `gptModelEnv` the value of the `GPT_MODEL`
environment variable when set, and `response` the message content returned by
the remote completion service.  The system message comes from the template;
the user message is the fixed instruction followed by the transcript; the
model falls back to `"gpt-3.5-turbo"`; temperature `0.7` and `max_tokens`
`2000` are fixed. -/
def generate_case_notes (templateFile : Option String) (gptModelEnv : Option String)
    (transcript : String) (response : String) (now : String) : Except LoadError GenResult :=
  match load_template templateFile with
  | .error e => .error e
  | .ok template =>
    let messages : List ChatMessage :=
      [⟨"system", template.system_content⟩,
       ⟨"user",
        "Please analyze the following transcript and generate structured medical notes:\n\n"
          ++ transcript⟩]
    let model := gptModelEnv.getD "gpt-3.5-turbo"
    let notes := response
    .ok ⟨⟨model, messages, mkRat 7 10, 2000⟩, notes, notesHtml notes model now⟩

/-! ## utils.py: save_case_notes -/

/-- Filename of the raw notes artifact: `f"{stem}_notes_raw.txt"`. -/
def notes_raw_name (stem : String) : String := stem ++ "_notes_raw.txt"

/-- Filename of the HTML notes artifact: `f"{stem}_notes_formatted.html"`. -/
def notes_formatted_name (stem : String) : String := stem ++ "_notes_formatted.html"

/-- Filename of the markdown notes artifact: `f"{stem}_notes.md"`. -/
def notes_md_name (stem : String) : String := stem ++ "_notes.md"

/-- `save_case_notes` from utils.py: write the raw, HTML and markdown
artifacts into the case-notes directory and return the new directory together
with the path of the HTML artifact (the function's return value). -/
def save_case_notes (dir : List (String × String)) (audio_stem notes html_content : String)
    (gptModelEnv : Option String) (now : String) : List (String × String) × String :=
  let d1 := writeFile dir (notes_raw_name audio_stem) notes
  let d2 := writeFile d1 (notes_formatted_name audio_stem) html_content
  let md_content := "# Medical Case Notes\n\n" ++ "**Generated:** " ++ now ++ "\n" ++
    "**Model:** " ++ gptModelEnv.getD "gpt-3.5-turbo" ++ "\n\n" ++ notes
  let d3 := writeFile d2 (notes_md_name audio_stem) md_content
  (d3, notes_formatted_name audio_stem)

/-! ## gui.py: NotesWorker.run -/

/-- How one `NotesWorker.run` invocation ends: with an `error` signal, by
returning silently after observing the cleared stop flag (the run the GUI then
reports as cancelled), or by emitting `finished`. -/
inductive NotesOutcome where
  | errored (msg : String)
  | cancelled
  | completed
  deriving DecidableEq, Repr

/-- The observable result of one `NotesWorker.run` invocation. -/
structure NotesRunResult where
  outcome : NotesOutcome
  caseNotesDir : List (String × String)
  finishedEmitted : Bool
  deriving DecidableEq, Repr

/-- `NotesWorker.run` from gui.py.  `genResult` is the outcome of the
`generate_case_notes` call (the remote call runs to completion regardless of
the stop flag).  `stoppedAtCheck1` is the value `not self._is_running` would
read at the check between generation and saving; `stoppedAtCheck2` the value
at the check after saving.  `stop()` only ever clears the flag, so a
cancellation requested before note generation starts makes `stoppedAtCheck1`
true. -/
def NotesWorker_run (transcript : String) (apiKeySet connectionOk : Bool)
    (genResult : Except String (String × String))
    (stoppedAtCheck1 stoppedAtCheck2 : Bool)
    (audio_stem : String) (gptModelEnv : Option String) (now : String)
    (dir : List (String × String)) : NotesRunResult :=
  if transcript = "" then
    ⟨.errored "Validation error: Invalid transcript provided", dir, false⟩
  else if apiKeySet = false then
    ⟨.errored "Validation error: OpenAI API key not found. Please set it in the API Settings.",
      dir, false⟩
  else if connectionOk = false then
    ⟨.errored "Connection error: No internet connection. Please check your network.", dir, false⟩
  else
    match genResult with
    | .error msg => ⟨.errored msg, dir, false⟩
    | .ok (notes, html_content) =>
      if stoppedAtCheck1 = true then ⟨.cancelled, dir, false⟩
      else
        let dir1 := (save_case_notes dir audio_stem notes html_content gptModelEnv now).1
        if stoppedAtCheck2 = true then ⟨.cancelled, dir1, false⟩
        else ⟨.completed, dir1, true⟩

/-! ## Specification-side definition used for the refinement comparison -/

/-- Modelled from the spec: the user message the specification describes for
`generate_case_notes` is the template's user body with the transcript
substituted for its `\x7b\x7bTRANSCRIPT\x7d\x7d` placeholder.  This definition
exists only to be compared against the message the code constructs. -/
def spec_user_message (template : Template) (transcript : String) : String :=
  pyReplace template.user_template "\x7b\x7bTRANSCRIPT\x7d\x7d" transcript

/-! ## Concrete fixtures used by witnesses and counterexamples -/

/-- A filesystem holding a single small valid audio file `visit.mp3`. -/
def fsVisit : String → Option FileStat :=
  fun p => if p = "visit.mp3" then some ⟨true, 1000⟩ else none

/-- A filesystem holding a single small file `FILE.MP3` with an upper-case
extension. -/
def fsUpper : String → Option FileStat :=
  fun p => if p = "FILE.MP3" then some ⟨true, 1000⟩ else none

/-- A filesystem with no files at all. -/
def fsEmpty : String → Option FileStat := fun _ => none

/-- A filesystem holding a single 200 MB audio file `big.mp3`. -/
def fsBig : String → Option FileStat :=
  fun p => if p = "big.mp3" then some ⟨true, 200 * 1024 * 1024⟩ else none

/-- A filesystem holding a single small non-audio file `doc.pdf`. -/
def fsPdf : String → Option FileStat :=
  fun p => if p = "doc.pdf" then some ⟨true, 10⟩ else none

end MedNotes

namespace MedNotes

/-! ## Order facts about the lexicographic comparison -/

theorem charLe_total : ∀ a b, charLe a b = true ∨ charLe b a = true := by
  intro a
  induction a with
  | nil => intro b; left; rfl
  | cons x xs ih =>
    intro b
    cases b with
    | nil => right; rfl
    | cons y ys =>
      rcases lt_trichotomy x y with h | h | h
      · left; simp [charLe, h]
      · subst h
        rcases ih ys with h' | h'
        · left; simp [charLe, lt_irrefl, h']
        · right; simp [charLe, lt_irrefl, h']
      · right; simp [charLe, h]

theorem charLe_trans :
    ∀ a b c, charLe a b = true → charLe b c = true → charLe a c = true := by
  intro a
  induction a with
  | nil => intro b c _ _; rfl
  | cons x xs ih =>
    intro b c hab hbc
    cases b with
    | nil => simp [charLe] at hab
    | cons y ys =>
      cases c with
      | nil => simp [charLe] at hbc
      | cons z zs =>
        rcases lt_trichotomy x y with hxy | hxy | hxy
        · rcases lt_trichotomy y z with hyz | hyz | hyz
          · simp [charLe, lt_trans hxy hyz]
          · subst hyz; simp [charLe, hxy]
          · simp [charLe, hyz, asymm hyz] at hbc
        · subst hxy
          rcases lt_trichotomy x z with hyz | hyz | hyz
          · simp [charLe, hyz]
          · subst hyz
            simp only [charLe, lt_irrefl, if_false] at hab hbc ⊢
            exact ih ys zs hab hbc
          · simp [charLe, hyz, asymm hyz] at hbc
        · simp [charLe, hxy, asymm hxy] at hab

instance : IsTotal String (fun a b => strLe a b = true) :=
  ⟨fun a b => charLe_total a.data b.data⟩

instance : IsTrans String (fun a b => strLe a b = true) :=
  ⟨fun a b c => charLe_trans a.data b.data c.data⟩

/-! ## Facts about the directory model -/

theorem readFile_writeFile_same (d : List (String × String)) (n c : String) :
    readFile (writeFile d n c) n = some c := by
  induction d with
  | nil => simp [writeFile, readFile]
  | cons kv rest ih =>
    obtain ⟨k, v⟩ := kv
    by_cases h : k = n
    · simp [writeFile, readFile, h]
    · simp [writeFile, readFile, h, ih]

theorem readFile_writeFile_ne (d : List (String × String)) {n n' : String} (c : String)
    (h : n' ≠ n) : readFile (writeFile d n' c) n = readFile d n := by
  induction d with
  | nil => simp [writeFile, readFile, h]
  | cons kv rest ih =>
    obtain ⟨k, v⟩ := kv
    by_cases hk : k = n'
    · subst hk
      simp [writeFile, readFile, h]
    · by_cases hkn : k = n
      · subst hkn
        simp [writeFile, readFile, hk]
      · simp [writeFile, readFile, hk, hkn, ih]

theorem mem_keys_writeFile (d : List (String × String)) (n c : String) :
    n ∈ (writeFile d n c).map Prod.fst := by
  induction d with
  | nil => simp [writeFile]
  | cons kv rest ih =>
    obtain ⟨k, v⟩ := kv
    by_cases h : k = n
    · simp [writeFile, h]
    · simp only [writeFile, if_neg h, List.map_cons, List.mem_cons]
      exact Or.inr ih

theorem keys_writeFile_of_mem (d : List (String × String)) (n c : String)
    (h : n ∈ d.map Prod.fst) : (writeFile d n c).map Prod.fst = d.map Prod.fst := by
  induction d with
  | nil => simp at h
  | cons kv rest ih =>
    obtain ⟨k, v⟩ := kv
    by_cases hk : k = n
    · subst hk; simp [writeFile]
    · have hrest : n ∈ rest.map Prod.fst := by
        simp only [List.map_cons, List.mem_cons] at h
        rcases h with h | h
        · exact absurd h.symm hk
        · exact h
      simp [writeFile, hk, ih hrest]

theorem keys_writeFile_content (d : List (String × String)) (n c₁ c₂ : String) :
    (writeFile d n c₁).map Prod.fst = (writeFile d n c₂).map Prod.fst := by
  induction d with
  | nil => simp [writeFile]
  | cons kv rest ih =>
    obtain ⟨k, v⟩ := kv
    by_cases hk : k = n
    · simp [writeFile, hk]
    · simp [writeFile, hk, ih]

/-! ## String append cancellation -/

theorem string_append_right_cancel {s₁ s₂ t : String} : s₁ ++ t = s₂ ++ t ↔ s₁ = s₂ := by
  constructor
  · intro h
    apply String.ext
    have hd := congrArg String.data h
    rw [String.data_append, String.data_append] at hd
    exact List.append_cancel_right hd
  · intro h; rw [h]

theorem string_append_left_cancel {s a b : String} : s ++ a = s ++ b ↔ a = b := by
  constructor
  · intro h
    apply String.ext
    have hd := congrArg String.data h
    rw [String.data_append, String.data_append] at hd
    exact List.append_cancel_left hd
  · intro h; rw [h]

/-! ## load_template always succeeds on a present file -/

theorem load_template_some_ok (content : String) :
    ∃ tpl, load_template (some content) = .ok tpl := by
  by_cases h1 : pyStartsWith content "---" = true
  · by_cases h2 : 3 ≤ (pySplit2 content "---").length
    · exact ⟨front_matter_template content, by simp [load_template, h1, h2]⟩
    · exact ⟨⟨"You are a helpful assistant that creates clear summaries of transcripts.",
        content⟩, by simp [load_template, h1, h2]⟩
  · exact ⟨⟨"You are a helpful assistant that creates clear summaries of transcripts.",
      content⟩, by simp [load_template, h1]⟩

end MedNotes

namespace MedNotes

/-! ## Claim C4 -/

/-- C4: `validate_audio_file` fails with the missing-file error when the path
does not exist, with the too-large error when the (existing, regular) file
exceeds `MAX_AUDIO_SIZE`, and with the invalid-format error when the
(existing, regular, not oversized) file has an extension outside the
allow-list; and whenever validation fails, `transcribe_audio` performs no
remote call, no fallback call, and leaves the transcriptions directory
untouched. -/
theorem validate_audio_file_error_contract :
    ∀ (fs : String → Option FileStat) (file_path : String),
      (fs file_path = none →
        validate_audio_file fs file_path = .error .fileNotFound) ∧
      (∀ st, fs file_path = some st → st.isFile = true →
        MAX_AUDIO_SIZE < st.size →
        validate_audio_file fs file_path = .error .tooLarge) ∧
      (∀ st, fs file_path = some st → st.isFile = true →
        st.size ≤ MAX_AUDIO_SIZE →
        valid_extensions.contains (lowerStr (pySuffix file_path)) = false →
        validate_audio_file fs file_path = .error .invalidFormat) ∧
      (∀ (e : ValidationError) (tdir : List (String × String))
          (remote : Except String String) (now : String),
        validate_audio_file fs file_path = .error e →
        (transcribe_audio fs tdir file_path remote now).transcriptionsDir = tdir ∧
        (transcribe_audio fs tdir file_path remote now).remoteCalls = 0 ∧
        (transcribe_audio fs tdir file_path remote now).fallbackCalls = 0) := by
  intro fs file_path
  refine ⟨?_, ?_, ?_, ?_⟩
  · intro h
    simp [validate_audio_file, h]
  · intro st hst hfile hsize
    simp [validate_audio_file, hst, hfile, hsize]
  · intro st hst hfile hsize hext
    have hext' : lowerStr (pySuffix file_path) ∉ valid_extensions := by simpa using hext
    simp [validate_audio_file, hst, hfile, Nat.not_lt.mpr hsize, hext']
  · intro e tdir remote now h
    refine ⟨?_, ?_, ?_⟩ <;> simp [transcribe_audio, h]

/-- Witness for C4: each error branch exercised at a concrete filesystem, and
the no-effect conclusion at the missing-file case. -/
theorem validate_audio_file_error_contract_witness :
    validate_audio_file fsEmpty "x.mp3" = .error .fileNotFound ∧
    validate_audio_file fsBig "big.mp3" = .error .tooLarge ∧
    validate_audio_file fsPdf "doc.pdf" = .error .invalidFormat ∧
    (transcribe_audio fsEmpty [] "x.mp3" (.ok "t") "d").transcriptionsDir = [] ∧
    (transcribe_audio fsEmpty [] "x.mp3" (.ok "t") "d").remoteCalls = 0 ∧
    (transcribe_audio fsEmpty [] "x.mp3" (.ok "t") "d").fallbackCalls = 0 := by
  have h1 := validate_audio_file_error_contract fsEmpty "x.mp3"
  have h2 := validate_audio_file_error_contract fsBig "big.mp3"
  have h3 := validate_audio_file_error_contract fsPdf "doc.pdf"
  have e1 : validate_audio_file fsEmpty "x.mp3" = .error .fileNotFound := h1.1 rfl
  have eb := h2.2.1 ⟨true, 200 * 1024 * 1024⟩ rfl rfl (by decide)
  have ep := h3.2.2.1 ⟨true, 10⟩ rfl rfl (by decide) (by decide)
  have hfx := h1.2.2.2 .fileNotFound [] (.ok "t") "d" e1
  exact ⟨e1, eb, ep, hfx.1, hfx.2.1, hfx.2.2⟩

/-! ## Claim C9 -/

/-- C9: the format check of `validate_audio_file` is case-insensitive: any
path whose suffix, lowered, lies in the allow-list can never fail with the
invalid-format error, and in particular `FILE.MP3` passes validation; by
contrast `list_audio_files` matches only the lower-case glob patterns, so the
same name is not listed. -/
theorem validate_format_case_insensitive :
    (∀ (fs : String → Option FileStat) (file_path : String),
        valid_extensions.contains (lowerStr (pySuffix file_path)) = true →
        validate_audio_file fs file_path ≠ .error .invalidFormat) ∧
    lowerStr (pySuffix "FILE.MP3") = ".mp3" ∧
    validate_audio_file fsUpper "FILE.MP3" = .ok () ∧
    list_audio_files ["FILE.MP3"] = [] := by
  refine ⟨?_, by decide, by decide, by decide⟩
  intro fs file_path h hcontra
  cases hfs : fs file_path with
  | none => simp [validate_audio_file, hfs] at hcontra
  | some st =>
    by_cases hf : st.isFile = false
    · simp [validate_audio_file, hfs, hf] at hcontra
    · by_cases hsz : MAX_AUDIO_SIZE < st.size
      · simp [validate_audio_file, hfs, hf, hsz] at hcontra
      · have h' : lowerStr (pySuffix file_path) ∈ valid_extensions := by simpa using h
        simp [validate_audio_file, hfs, hf, hsz, h'] at hcontra

/-- Witness for C9: the universally quantified part applied to the concrete
upper-case file. -/
theorem validate_format_case_insensitive_witness :
    validate_audio_file fsUpper "FILE.MP3" ≠ .error .invalidFormat :=
  validate_format_case_insensitive.1 fsUpper "FILE.MP3" (by decide)

/-! ## Claim C6 -/

/-- C6: `list_audio_files` returns exactly the directory entries whose name
ends with one of the allow-listed extensions, sorted lexicographically by code
point; an empty directory yields the empty list, and the directory
`b.wav, a.mp3, c.flac` yields `[a.mp3, b.wav, c.flac]`. -/
theorem list_audio_files_spec :
    (∀ entries : List String,
        List.Sorted (fun a b => strLe a b = true) (list_audio_files entries)) ∧
    (∀ (entries : List String) (name : String),
        name ∈ list_audio_files entries ↔
          name ∈ entries ∧ ∃ ext ∈ audio_formats, pyEndsWith name ext = true) ∧
    list_audio_files [] = [] ∧
    list_audio_files ["b.wav", "a.mp3", "c.flac"] = ["a.mp3", "b.wav", "c.flac"] := by
  refine ⟨?_, ?_, by decide, by decide⟩
  · intro entries
    exact List.sorted_insertionSort _ _
  · intro entries name
    unfold list_audio_files
    rw [(List.perm_insertionSort _ _).mem_iff]
    simp only [List.mem_flatMap, globExt, List.mem_filter]
    constructor
    · rintro ⟨ext, hext, hname, hsuf⟩
      exact ⟨hname, ext, hext, hsuf⟩
    · rintro ⟨hname, ext, hext, hsuf⟩
      exact ⟨ext, hext, hname, hsuf⟩

/-! ## Claim C10 -/

/-- C10: for a template file whose content does not start with `---`,
`load_template` returns the fixed default system content together with the
whole file content, unchanged, as the user template. -/
theorem load_template_no_front_matter :
    ∀ content : String, pyStartsWith content "---" = false →
      load_template (some content) =
        .ok ⟨"You are a helpful assistant that creates clear summaries of transcripts.",
          content⟩ := by
  intro content h
  simp [load_template, h]

/-- Witness for C10 at a concrete template without front matter. -/
theorem load_template_no_front_matter_witness :
    load_template (some "Please summarize the transcript.") =
      .ok ⟨"You are a helpful assistant that creates clear summaries of transcripts.",
        "Please summarize the transcript."⟩ :=
  load_template_no_front_matter "Please summarize the transcript." (by decide)

end MedNotes

namespace MedNotes

/-! ## Claim C2 -/

/-- The template of the C2 example: front matter declaring the system message
`You are an assistant.` followed by the user body
`Analyze: \x7b\x7bTRANSCRIPT\x7d\x7d`. -/
def c2_template : String :=
  "---\nrole: system\ncontent: You are an assistant.\n---\n\nAnalyze: \x7b\x7bTRANSCRIPT\x7d\x7d"

/-- C2 counterexample: with the example template and transcript
`Hello world`, the user message `generate_case_notes` constructs is the fixed
instruction followed by the transcript, while substituting the transcript
into the template's placeholder (what the claim asserts the message equals)
gives `Analyze: Hello world`; the two differ, so the constructed user message
is not the substituted template body. -/
theorem generate_user_message_counterexample :
    Except.map (fun r => (r.request.messages.getD 1 ⟨"", ""⟩).content)
        (generate_case_notes (some c2_template) none "Hello world" "resp" "now")
      = .ok ("Please analyze the following transcript and generate structured medical notes:"
          ++ "\n\nHello world") ∧
    Except.map (fun tpl => spec_user_message tpl "Hello world")
        (load_template (some c2_template))
      = .ok "Analyze: Hello world" ∧
    Except.map (fun r => (r.request.messages.getD 1 ⟨"", ""⟩).content)
        (generate_case_notes (some c2_template) none "Hello world" "resp" "now")
      ≠ .ok "Analyze: Hello world" := by
  refine ⟨by decide, by decide, by decide⟩

/-- C2 amended: for every present template file and every transcript, the
user message of the constructed completion request is the fixed instruction
`Please analyze the following transcript and generate structured medical
notes:` followed by a blank line and the transcript; the template's user body
and its placeholder are ignored (only the template's system content is
used). -/
theorem generate_case_notes_user_message :
    ∀ (content : String) (gptModelEnv : Option String) (transcript response now : String),
      Except.map (fun r => (r.request.messages.getD 1 ⟨"", ""⟩).content)
          (generate_case_notes (some content) gptModelEnv transcript response now)
        = .ok ("Please analyze the following transcript and generate structured medical notes:"
            ++ "\n\n" ++ transcript) := by
  intro content env transcript response now
  obtain ⟨tpl, htpl⟩ := load_template_some_ok content
  simp [generate_case_notes, htpl, Except.map, List.getD]

/-! ## Claim C8 -/

/-- C8: every completion request built by `generate_case_notes` carries the
fixed sampling parameters (temperature `0.7` and `max_tokens` `2000`) and the
model read from the `GPT_MODEL` configuration, which falls back to
`gpt-3.5-turbo` when the configuration is unset. -/
theorem generate_case_notes_model_and_sampling :
    ∀ (templateFile gptModelEnv : Option String) (transcript response now : String)
      (r : GenResult),
      generate_case_notes templateFile gptModelEnv transcript response now = .ok r →
        r.request.temperature = mkRat 7 10 ∧
        r.request.max_tokens = 2000 ∧
        r.request.model = gptModelEnv.getD "gpt-3.5-turbo" ∧
        (gptModelEnv = none → r.request.model = "gpt-3.5-turbo") := by
  intro tf env transcript response now r h
  cases htpl : load_template tf with
  | error e => simp [generate_case_notes, htpl] at h
  | ok tpl =>
    simp only [generate_case_notes, htpl] at h
    injection h with h
    subst h
    refine ⟨rfl, rfl, rfl, ?_⟩
    intro he
    subst he
    rfl

/-- The result `generate_case_notes` produces for the template file `T`, no
model configuration, transcript `t`, response `resp` and date `now`. -/
def c8_result : GenResult :=
  ⟨⟨"gpt-3.5-turbo",
    [⟨"system", "You are a helpful assistant that creates clear summaries of transcripts."⟩,
     ⟨"user",
      "Please analyze the following transcript and generate structured medical notes:\n\nt"⟩],
    mkRat 7 10, 2000⟩, "resp", notesHtml "resp" "gpt-3.5-turbo" "now"⟩

/-- Witness for C8: the request built with `GPT_MODEL` unset uses temperature
`0.7`, `max_tokens` `2000` and the default model. -/
theorem generate_case_notes_model_and_sampling_witness :
    c8_result.request.temperature = mkRat 7 10 ∧
    c8_result.request.max_tokens = 2000 ∧
    c8_result.request.model = "gpt-3.5-turbo" := by
  have h := generate_case_notes_model_and_sampling (some "T") none "t" "resp" "now" c8_result rfl
  exact ⟨h.1, h.2.1, h.2.2.2 rfl⟩

/-! ## Claim C5 -/

/-- C5: when validation passes and the remote transcription call returns a
text, `transcribe_audio` returns that text unchanged and the raw transcript
artifact written under the source stem holds exactly that text (in
particular, its content includes it). -/
theorem transcribe_audio_success :
    ∀ (fs : String → Option FileStat) (tdir : List (String × String))
      (audio_file transcript now : String),
      validate_audio_file fs audio_file = .ok () →
        (transcribe_audio fs tdir audio_file (.ok transcript) now).result = .ok transcript ∧
        readFile (transcribe_audio fs tdir audio_file (.ok transcript) now).transcriptionsDir
            (raw_transcript_name (pyStem audio_file)) = some transcript := by
  intro fs tdir audio_file transcript now h
  have hne : formatted_transcript_name (pyStem audio_file)
      ≠ raw_transcript_name (pyStem audio_file) := by
    intro hcontra
    have h2 : ("_formatted.html" : String) = "_raw.txt" := by
      unfold formatted_transcript_name raw_transcript_name at hcontra
      exact string_append_left_cancel.mp hcontra
    exact absurd h2 (by decide)
  constructor
  · simp [transcribe_audio, h]
  · simp only [transcribe_audio, h]
    rw [readFile_writeFile_ne _ _ hne, readFile_writeFile_same]

/-- Witness for C5 at the concrete response of the specification example. -/
theorem transcribe_audio_success_witness :
    (transcribe_audio fsVisit [] "visit.mp3"
        (.ok "Patient reports mild lower back pain.") "2026-10-12 09:00:00").result
      = .ok "Patient reports mild lower back pain." ∧
    readFile (transcribe_audio fsVisit [] "visit.mp3"
        (.ok "Patient reports mild lower back pain.") "2026-10-12 09:00:00").transcriptionsDir
        (raw_transcript_name (pyStem "visit.mp3"))
      = some "Patient reports mild lower back pain." :=
  transcribe_audio_success fsVisit [] "visit.mp3"
    "Patient reports mild lower back pain." "2026-10-12 09:00:00" rfl

end MedNotes

namespace MedNotes

/-! ## Claim C1 -/

/-- C1 counterexample: for a valid audio file whose remote transcription call
fails, `transcribe_audio` makes zero fallback invocations (the claim requires
exactly one), propagates the remote error itself to the caller, and writes no
transcript artifact. -/
theorem transcribe_no_fallback_counterexample :
    transcribe_audio fsVisit [] "visit.mp3" (.error "network unreachable") "2026-10-12 09:00:00"
      = ⟨.error (.remote "network unreachable"), [], 1, 0⟩ ∧
    (transcribe_audio fsVisit [] "visit.mp3" (.error "network unreachable")
        "2026-10-12 09:00:00").fallbackCalls ≠ 1 := by
  exact ⟨by decide, by decide⟩

/-- C1 amended: if the remote transcription call raises any error,
`transcribe_audio` invokes no fallback capability at all; the remote error
itself propagates to the caller and no transcript artifact is written. -/
theorem transcribe_remote_failure_no_fallback :
    ∀ (fs : String → Option FileStat) (tdir : List (String × String))
      (audio_file msg now : String),
      validate_audio_file fs audio_file = .ok () →
        transcribe_audio fs tdir audio_file (.error msg) now
          = ⟨.error (.remote msg), tdir, 1, 0⟩ := by
  intro fs tdir audio_file msg now h
  simp [transcribe_audio, h]

/-- Witness for the amended C1 at a concrete failing remote call. -/
theorem transcribe_remote_failure_no_fallback_witness :
    transcribe_audio fsVisit [] "visit.mp3" (.error "quota exceeded") "2026-10-12 09:00:00"
      = ⟨.error (.remote "quota exceeded"), [], 1, 0⟩ :=
  transcribe_remote_failure_no_fallback fsVisit [] "visit.mp3" "quota exceeded"
    "2026-10-12 09:00:00" rfl

/-! ## Claim C3 -/

/-- C3 counterexample: the artifact filenames contain no date stamp.  Running
`transcribe_audio` on the same source on two different dates writes the very
same filenames `visit_raw.txt` and `visit_formatted.html`, `save_case_notes`
writes `visit_notes_raw.txt`, `visit_notes_formatted.html` and
`visit_notes.md`, and none of the five filenames contains even a single digit,
so no date stamp in any numeric format can occur in them. -/
theorem artifact_names_no_date_counterexample :
    (transcribe_audio fsVisit [] "visit.mp3" (.ok "hello")
        "2026-10-12 09:00:00").transcriptionsDir.map Prod.fst
      = ["visit_raw.txt", "visit_formatted.html"] ∧
    (transcribe_audio fsVisit [] "visit.mp3" (.ok "hello")
        "2026-10-12 09:00:00").transcriptionsDir.map Prod.fst
      = (transcribe_audio fsVisit [] "visit.mp3" (.ok "hello")
          "2027-01-01 00:00:00").transcriptionsDir.map Prod.fst ∧
    (save_case_notes [] "visit" "notes" "html" none "2026-10-12 09:00:00").1.map Prod.fst
      = ["visit_notes_raw.txt", "visit_notes_formatted.html", "visit_notes.md"] ∧
    ((raw_transcript_name "visit").data.all fun c => !c.isDigit) = true ∧
    ((formatted_transcript_name "visit").data.all fun c => !c.isDigit) = true ∧
    ((notes_raw_name "visit").data.all fun c => !c.isDigit) = true ∧
    ((notes_formatted_name "visit").data.all fun c => !c.isDigit) = true ∧
    ((notes_md_name "visit").data.all fun c => !c.isDigit) = true := by
  refine ⟨by decide, by decide, by decide, by decide, by decide, by decide, by decide, by decide⟩

/-- C3 amended: every artifact filename is the source stem followed by a
fixed per-artifact suffix, with no date component: two stems give the same
filename exactly when they are equal (so runs for sources with distinct stems
never collide), the filenames written by `transcribe_audio` do not depend on
the current date, and re-writing an existing filename overwrites it without
adding a new directory entry. -/
theorem artifact_names_stem_determined :
    (∀ s₁ s₂ : String, raw_transcript_name s₁ = raw_transcript_name s₂ ↔ s₁ = s₂) ∧
    (∀ s₁ s₂ : String, formatted_transcript_name s₁ = formatted_transcript_name s₂ ↔ s₁ = s₂) ∧
    (∀ s₁ s₂ : String, notes_raw_name s₁ = notes_raw_name s₂ ↔ s₁ = s₂) ∧
    (∀ s₁ s₂ : String, notes_formatted_name s₁ = notes_formatted_name s₂ ↔ s₁ = s₂) ∧
    (∀ s₁ s₂ : String, notes_md_name s₁ = notes_md_name s₂ ↔ s₁ = s₂) ∧
    (∀ (fs : String → Option FileStat) (tdir : List (String × String))
        (audio_file : String) (remote : Except String String) (now₁ now₂ : String),
        (transcribe_audio fs tdir audio_file remote now₁).transcriptionsDir.map Prod.fst
          = (transcribe_audio fs tdir audio_file remote now₂).transcriptionsDir.map Prod.fst) ∧
    (∀ (d : List (String × String)) (n c₁ c₂ : String),
        (writeFile (writeFile d n c₁) n c₂).map Prod.fst
          = (writeFile d n c₁).map Prod.fst) := by
  refine ⟨?_, ?_, ?_, ?_, ?_, ?_, ?_⟩
  · intro s₁ s₂
    unfold raw_transcript_name
    exact string_append_right_cancel
  · intro s₁ s₂
    unfold formatted_transcript_name
    exact string_append_right_cancel
  · intro s₁ s₂
    unfold notes_raw_name
    exact string_append_right_cancel
  · intro s₁ s₂
    unfold notes_formatted_name
    exact string_append_right_cancel
  · intro s₁ s₂
    unfold notes_md_name
    exact string_append_right_cancel
  · intro fs tdir audio_file remote now₁ now₂
    cases hv : validate_audio_file fs audio_file with
    | error e => simp [transcribe_audio, hv]
    | ok u =>
      cases remote with
      | error msg => simp [transcribe_audio, hv]
      | ok t =>
        simp only [transcribe_audio, hv]
        exact keys_writeFile_content _ _ _ _
  · intro d n c₁ c₂
    exact keys_writeFile_of_mem _ _ _ (mem_keys_writeFile d n c₁)

/-! ## Claim C7 -/

/-- C7: when the cooperative stop flag has been cleared before the notes
worker reaches its first re-check (as happens whenever cancellation is
requested after transcription completes but before note generation starts),
a run whose validations pass and whose generation call returns ends as
cancelled: `save_case_notes` is never reached, the case-notes directory is
unchanged, and `finished` is not emitted. -/
theorem notes_worker_cancelled_before_save :
    ∀ (transcript : String) (genResult : Except String (String × String))
      (stoppedAtCheck2 : Bool) (audio_stem : String) (gptModelEnv : Option String)
      (now : String) (dir : List (String × String)) (notes html_content : String),
      transcript ≠ "" →
      genResult = .ok (notes, html_content) →
      NotesWorker_run transcript true true genResult true stoppedAtCheck2 audio_stem
          gptModelEnv now dir = ⟨.cancelled, dir, false⟩ := by
  intro t g s2 stem env now dir notes html ht hg
  subst hg
  simp [NotesWorker_run, ht]

/-- Witness for C7 at a concrete cancelled run. -/
theorem notes_worker_cancelled_before_save_witness :
    NotesWorker_run "Hello" true true (.ok ("n", "h")) true false "visit" none "d" []
      = ⟨.cancelled, [], false⟩ :=
  notes_worker_cancelled_before_save "Hello" (.ok ("n", "h")) false "visit" none "d" [] "n" "h"
    (by decide) rfl

end MedNotes
